import Mathlib

/-!
Verification of the ChatDT repository's message lifecycle core against its
natural-language specification.

The development shallowly embeds the JavaScript source:

* `web/src/utils/crypto.js` (both shipped variants): the base64 codec built on
  the platform functions btoa and atob, the input-shape normalizer
  `normalizeToArrayBuffer`, the key-derivation wrappers `deriveKey`, and the
  AES-GCM envelope functions `encryptText` and `decryptText`.  The Web Crypto
  AEAD primitive and the UTF-8 text codec are external platform collaborators;
  theorems about the envelope are parameterized over any primitive satisfying
  the standard AEAD and text-codec round-trip contracts, while btoa and atob
  are embedded concretely by their WHATWG semantics because the repository's
  codec logic (and the claims) depend on their exact behavior.
* `Server/index.js` (its shipped variants) and `src/unnamed/part_001`: the
  send-message, message-received and message-read socket handlers over a
  relational message store.  The SQL schema is not under src; following the
  specification (§3: `messageId` is globally unique), the messages table is
  modelled with a unique constraint on `message_id`, so a plain INSERT of a
  duplicate id raises.
* the Chat page clients (`web/src/pages/Chat.jsx` and the merge-enabled
  variant in `src/unnamed/part_005`): the handlers that reconcile incoming
  canonical records with the local optimistic message list.

Numbers are `Nat` (JS byte values are 0..255 and are modelled with explicit
bounds or `% 256` where the source relies on Uint8Array wrapping).
-/

/-! ## Base64 codec (btoa / atob as used by crypto.js) -/

/-- The standard base64 alphabet used by btoa and atob. -/
def b64alphabet : List Char :=
  "ABCDEFGHIJKLMNOPQRSTUVWXYZabcdefghijklmnopqrstuvwxyz0123456789+/".toList

/-- Character for a sextet value (total; only applied to values below 64). -/
def b64chr (n : Nat) : Char := b64alphabet.getD n '='

/-- Sextet value of a base64 character; `none` on characters outside the
alphabet (atob raises InvalidCharacterError there). -/
def b64val (c : Char) : Option Nat := b64alphabet.indexOf? c

/-- btoa applied to a byte sequence, chunked three bytes to four characters
with `=` padding, exactly as the loop in `toBase64` /
`base64FromArrayBuffer` feeds byte char-codes to btoa. -/
def encodeChunks : List Nat → List Char
  | a :: b :: c :: rest =>
      b64chr (a / 4) :: b64chr (a % 4 * 16 + b / 16) ::
        b64chr (b % 16 * 4 + c / 64) :: b64chr (c % 64) :: encodeChunks rest
  | [a, b] => [b64chr (a / 4), b64chr (a % 4 * 16 + b / 16), b64chr (b % 16 * 4), '=']
  | [a] => [b64chr (a / 4), b64chr (a % 4 * 16), '=', '=']
  | [] => []

/-- atob (WHATWG forgiving-base64 decode) on a character sequence: groups of
four characters yield three bytes, a trailing group of two or three (padded
with `=` or unpadded) yields one or two bytes, leftover bits are discarded,
and anything else — an unknown character, `=` in the middle, or a length
congruent to 1 mod 4 — is an error (`none`). -/
def decodeChunks : List Char → Option (List Nat)
  | [] => some []
  | c1 :: c2 :: c3 :: c4 :: rest =>
      match b64val c1, b64val c2 with
      | some v1, some v2 =>
          if c3 = '=' then
            if c4 = '=' ∧ rest = [] then some [v1 * 4 + v2 / 16] else none
          else
            match b64val c3 with
            | some v3 =>
                if c4 = '=' then
                  if rest = [] then some [v1 * 4 + v2 / 16, v2 % 16 * 16 + v3 / 4] else none
                else
                  match b64val c4, decodeChunks rest with
                  | some v4, some tail =>
                      some ([v1 * 4 + v2 / 16, v2 % 16 * 16 + v3 / 4, v3 % 4 * 64 + v4] ++ tail)
                  | _, _ => none
            | none => none
      | _, _ => none
  | [c1, c2] =>
      match b64val c1, b64val c2 with
      | some v1, some v2 => some [v1 * 4 + v2 / 16]
      | _, _ => none
  | [c1, c2, c3] =>
      match b64val c1, b64val c2, b64val c3 with
      | some v1, some v2, some v3 => some [v1 * 4 + v2 / 16, v2 % 16 * 16 + v3 / 4]
      | _, _, _ => none
  | _ => none

/-- Function `toBase64` of crypto.js variant 1 (and `base64FromArrayBuffer` of
variant 2): read the bytes, build the binary string, btoa it. -/
def toBase64 (bs : List Nat) : String := String.mk (encodeChunks bs)

/-- Function `fromBase64` of crypto.js variant 1 (and `arrayBufferFromBase64` of
variant 2): atob the text, read the char codes back as bytes. -/
def fromBase64 (b64 : String) : Option (List Nat) := decodeChunks b64.data

/-! ## JavaScript value shapes accepted by the transport codec -/

/-- The JavaScript values that can reach `normalizeToArrayBuffer`: primitives
(for the falsy guard), base64 text, raw binary (ArrayBuffer), a typed-array
view (whose `.buffer` the code returns), and a generic object whose `.data`
field may or may not be an array of numbers (a JSON-decoded Buffer). -/
inductive JSVal where
  | null
  | undef
  | bool (b : Bool)
  | num (n : Int)
  | str (s : String)
  | arrayBuffer (bytes : List Nat)
  | view (buffer : List Nat)
  | obj (data : Option (List Nat))
deriving DecidableEq

/-- JavaScript truthiness for the shapes above (NaN is not modelled; the
codec never receives one). -/
def isTruthy : JSVal → Bool
  | .null => false
  | .undef => false
  | .bool b => b
  | .num n => decide (n ≠ 0)
  | .str s => decide (s ≠ "")
  | .arrayBuffer _ => true
  | .view _ => true
  | .obj _ => true

/-- The string `typeof` would print, used in the normalizer's error text. -/
def typeofJS : JSVal → String
  | .null => "object"
  | .undef => "undefined"
  | .bool _ => "boolean"
  | .num _ => "number"
  | .str _ => "string"
  | .arrayBuffer _ => "object"
  | .view _ => "object"
  | .obj _ => "object"

/-- Function `normalizeToArrayBuffer` from crypto.js variant 1: falsy inputs other
than the number 0 yield null (`some none` is not used; `Except.ok none`
stands for returning null); an ArrayBuffer is returned as is; a view yields
its `.buffer`; an object with an array `.data` is rebuilt through
`new Uint8Array(data)` (byte wrapping mod 256); a string is decoded by atob
(whose failure is an exception that escapes the function); anything else
raises the unsupported-type error. -/
def normalizeToArrayBuffer (input : JSVal) : Except String (Option (List Nat)) :=
  if isTruthy input = false ∧ input ≠ .num 0 then .ok none
  else
    match input with
    | .arrayBuffer bs => .ok (some bs)
    | .view buf => .ok (some buf)
    | .obj (some data) => .ok (some (data.map (· % 256)))
    | .str s =>
        match fromBase64 s with
        | some bs => .ok (some bs)
        | none => .error "InvalidCharacterError"
    | other => .error ("Unsupported input type for crypto normalizer: " ++ typeofJS other)

/-- The shapes the file's comment block advertises as accepted. -/
def recognizedShape : JSVal → Bool
  | .arrayBuffer _ => true
  | .view _ => true
  | .obj (some _) => true
  | .str _ => true
  | _ => false

/-- Feed a normalizer result back in as a JavaScript value: returning null
gives `null`, returning a buffer gives that ArrayBuffer. -/
def normResultToInput : Option (List Nat) → JSVal
  | none => .null
  | some bs => .arrayBuffer bs

/-! ## Envelope crypto (crypto.js), parameterized over the Web Crypto AEAD
primitive and the UTF-8 text codec, which live in the platform, not in the
repository. -/

/-- Function `encryptText` (variant 1): UTF-8 encode the plaintext, AES-GCM encrypt it
under the key with the freshly drawn 12-byte IV (randomness is external, so
the IV is a parameter), and base64 both outputs. -/
def encryptText {Key : Type} (aeadEnc : Key → List Nat → List Nat → List Nat)
    (utf8Enc : String → List Nat) (key : Key) (plainText : String)
    (ivBytes : List Nat) : String × String :=
  (toBase64 ivBytes, toBase64 (aeadEnc key ivBytes (utf8Enc plainText)))

/-- Function `decryptText` (variant 1): normalize the iv and ciphertext inputs, AES-GCM
decrypt, UTF-8 decode; every failure along the way is caught and rethrown as
a decrypt-failed error. -/
def decryptText {Key : Type} (aeadDec : Key → List Nat → List Nat → Option (List Nat))
    (utf8Dec : List Nat → String) (key : Key)
    (ivInput ciphertextInput : JSVal) : Except String String :=
  match normalizeToArrayBuffer ivInput, normalizeToArrayBuffer ciphertextInput with
  | .ok (some ivBuf), .ok (some cipherBuf) =>
      match aeadDec key ivBuf cipherBuf with
      | some plainBuf => .ok (utf8Dec plainBuf)
      | none => .error "decrypt failed: OperationError"
  | _, _ => .error "decrypt failed: bad input"

/-! ## Key derivation (both crypto.js variants).  PBKDF2 itself is the
platform's; what the repository fixes is every input to it, captured here as
the full parameter record handed to the platform. -/

inductive KdfAlg where
  | pbkdf2
deriving DecidableEq

inductive HashAlg where
  | sha256
deriving DecidableEq

inductive KeyAlg where
  | aesGcm
deriving DecidableEq

/-- Everything `crypto.subtle.deriveKey` receives: the derived key is a pure
function of this record, so two calls with equal records give equal keys. -/
structure DeriveParams where
  kdf : KdfAlg
  hash : HashAlg
  pass : String
  salt : String
  iterations : Nat
  keyAlg : KeyAlg
  keyLength : Nat
deriving DecidableEq

/-- Function `deriveKey` from crypto.js variant 1 (lines 46-73): never rejects;
the passphrase is coerced with a string-or-empty fallback and the room id
falls back to the fixed salt default-room; 200000 iterations of PBKDF2 over
SHA-256 into a 256-bit AES-GCM key. -/
def deriveKey1 (passphrase roomId : String) : Except String DeriveParams :=
  .ok { kdf := .pbkdf2, hash := .sha256
      , pass := if passphrase = "" then "" else passphrase
      , salt := if roomId = "" then "default-room" else roomId
      , iterations := 200000, keyAlg := .aesGcm, keyLength := 256 }

/-- Function `deriveKey` from crypto.js variant 2 (lines 154-180): an empty passphrase
is rejected before derivation; an empty salt is kept as the empty string;
120000 iterations of PBKDF2 over SHA-256 into a 256-bit AES-GCM key. -/
def deriveKey2 (passphrase salt : String) : Except String DeriveParams :=
  if passphrase = "" then .error "passphrase required"
  else
    .ok { kdf := .pbkdf2, hash := .sha256
        , pass := passphrase
        , salt := if salt = "" then "" else salt
        , iterations := 120000, keyAlg := .aesGcm, keyLength := 256 }

/-! ## Server reconciliation engine (Server/index.js and part_001) -/

/-- A row of the messages table.  The schema itself is not under src; per the
specification the `status` column defaults to sent and `delivered_at` /
`read_at` start null.  Timestamps produced by now() are abstract `Nat`
instants. -/
structure MsgRow where
  messageId : String
  roomId : String
  senderId : String
  ciphertext : String
  iv : String
  status : String
  deliveredAt : Option Nat
  readAt : Option Nat
  createdAt : String
deriving DecidableEq

/-- The message-received handler's UPDATE (all server variants):
status is overwritten with delivered, delivered_at is COALESCEd (first write
wins) for every row matching the message id. -/
def markDelivered (now : Nat) (db : List MsgRow) (mid : String) : List MsgRow :=
  db.map fun r =>
    if r.messageId = mid then
      { r with status := "delivered", deliveredAt := some (r.deliveredAt.getD now) }
    else r

/-- The message-read handler's UPDATE (all server variants): status is
overwritten with read, read_at is COALESCEd (first write wins). -/
def markRead (now : Nat) (db : List MsgRow) (mid : String) : List MsgRow :=
  db.map fun r =>
    if r.messageId = mid then
      { r with status := "read", readAt := some (r.readAt.getD now) }
    else r

/-- Position of a status along the sent, delivered, read progression. -/
def statusRank (s : String) : Nat :=
  if s = "read" then 2 else if s = "delivered" then 1 else 0

/-- The fields a client supplies with a send-message event. -/
structure SendInput where
  roomId : String
  userId : String
  username : String
  ciphertext : String
  iv : String
  messageId : String
  createdAt : Option String
deriving DecidableEq

/-- A JSON payload on the wire: JavaScript objects with possibly absent keys,
so every field is optional.  An absent key is `none`. -/
structure WirePayload where
  messageId : Option String := none
  roomId : Option String := none
  senderId : Option String := none
  username : Option String := none
  ciphertext : Option String := none
  iv : Option String := none
  status : Option String := none
  createdAt : Option String := none
  error : Option String := none
  details : Option String := none
deriving DecidableEq

/-- Where an emit goes: io.to(room) reaches every member including the
sender, socket.to(room) reaches every member except the sender, socket.emit
reaches only the sender, io.emit reaches every connection. -/
inductive EmitTarget where
  | roomAll (roomId : String)
  | roomOthers (roomId : String)
  | senderOnly
  | everyone
deriving DecidableEq

/-- Whether the originating connection is part of the audience. -/
def includesSender : EmitTarget → Bool
  | .roomAll _ => true
  | .roomOthers _ => false
  | .senderOnly => true
  | .everyone => true

/-- One socket emission: event name, audience, payload. -/
structure Emission where
  event : String
  target : EmitTarget
  payload : WirePayload
deriving DecidableEq

/-- The users table with the upsert both join and send perform
(ON CONFLICT (id) DO UPDATE SET name): last write wins on the name. -/
def upsertUser (users : List (String × String)) (id name : String) :
    List (String × String) :=
  if users.any (fun u => u.1 == id) then
    users.map (fun u => if u.1 == id then (id, name) else u)
  else users ++ [(id, name)]

/-- Server-side persistent state: the users and messages tables. -/
structure ServerState where
  users : List (String × String)
  messages : List MsgRow
deriving DecidableEq

/-- Modelled from the spec: the messages table schema (its migration is not
under src).  Spec §3 makes `messageId` globally unique, so message_id carries
a unique constraint and the plain INSERT the handlers issue raises a
duplicate-key error when a row with the same id already exists. -/
def insertMessage (db : List MsgRow) (row : MsgRow) : Except String (List MsgRow) :=
  if db.any (fun r => r.messageId == row.messageId) then
    .error "duplicate key value violates unique constraint"
  else .ok (db ++ [row])

/-- The row the send-message INSERT creates: status defaults to sent,
createdAt falls back to the server clock. -/
def rowOfInput (inp : SendInput) (now : String) : MsgRow :=
  { messageId := inp.messageId, roomId := inp.roomId, senderId := inp.userId
  , ciphertext := inp.ciphertext, iv := inp.iv, status := "sent"
  , deliveredAt := none, readAt := none
  , createdAt := inp.createdAt.getD now }

/-- The canonical payload the send handlers build from the inserted row. -/
def canonicalPayload (row : MsgRow) (username : String) : WirePayload :=
  { messageId := some row.messageId, roomId := some row.roomId
  , senderId := some row.senderId, username := some username
  , ciphertext := some row.ciphertext, iv := some row.iv
  , status := some row.status, createdAt := some row.createdAt }

/-- The send-message handler of Server/index.js variant 1 (lines 158-227):
upsert the user, INSERT the message, broadcast the canonical record with
io.to(roomId) — every room member, the sender included — and acknowledge the
sender with message-saved carrying only the id and status.  A persistence
failure is caught and answered with a send-error carrying only a generic
message. -/
def handleSendV1 (st : ServerState) (inp : SendInput) (now : String) :
    ServerState × List Emission :=
  let users1 := upsertUser st.users inp.userId inp.username
  match insertMessage st.messages (rowOfInput inp now) with
  | .ok msgs1 =>
      let row := rowOfInput inp now
      (⟨users1, msgs1⟩,
        [ ⟨"message", .roomAll inp.roomId, canonicalPayload row inp.username⟩
        , ⟨"message-saved", .senderOnly,
            { messageId := some row.messageId, status := some row.status }⟩ ])
  | .error _ =>
      (⟨users1, st.messages⟩,
        [ ⟨"send-error", .senderOnly, { error := some "db error" }⟩ ])

/-- The send-message handler of Server/index.js variant 3 (lines 579-638):
same persistence, but the broadcast uses socket.to(roomId) — everyone in the
room except the sender — the username falls back to Anon, and the send-error
carries the store's error text as details.  The acknowledgment is again only
id and status. -/
def handleSendV3 (st : ServerState) (inp : SendInput) (now : String) :
    ServerState × List Emission :=
  let name1 := if inp.username = "" then "Anon" else inp.username
  let users1 := upsertUser st.users inp.userId name1
  match insertMessage st.messages (rowOfInput inp now) with
  | .ok msgs1 =>
      let row := rowOfInput inp now
      (⟨users1, msgs1⟩,
        [ ⟨"message", .roomOthers inp.roomId, canonicalPayload row name1⟩
        , ⟨"message-saved", .senderOnly,
            { messageId := some row.messageId, status := some row.status }⟩ ])
  | .error e =>
      (⟨users1, st.messages⟩,
        [ ⟨"send-error", .senderOnly, { error := some "db error", details := some e }⟩ ])

/-- The stub send-message handler of part_001 (lines 91-110): its persistence
call is commented out, so it always succeeds; it broadcasts to the room
except the sender and acks with id and status sent.  (Its catch branch would
ack message-saved with status failed and the messageId, but nothing in the
try block can throw.) -/
def handleSendP1 (inp : SendInput) : List Emission :=
  [ ⟨"message", .roomOthers inp.roomId,
      { messageId := some inp.messageId, roomId := some inp.roomId
      , senderId := some inp.userId, ciphertext := some inp.ciphertext
      , iv := some inp.iv, createdAt := inp.createdAt, status := some "sent" }⟩
  , ⟨"message-saved", .senderOnly,
      { messageId := some inp.messageId, status := some "sent" }⟩ ]

/-! ## Client reconciliation engine (Chat.jsx and part_005) -/

/-- A message entry in the client's list: the canonical fields plus the
local-only plaintext cache. -/
structure ClientMsg where
  messageId : String
  roomId : String
  senderId : String
  username : String
  ciphertext : String
  iv : String
  status : String
  createdAt : String
  plaintext : Option String
deriving DecidableEq

/-- An incoming canonical record as normalized at the top of the part_005
handlers (all fields present in the claim's scenario). -/
structure IncomingRecord where
  messageId : String
  roomId : String
  senderId : String
  username : String
  ciphertext : String
  iv : String
  status : String
  createdAt : String
deriving DecidableEq

/-- Appending an incoming record as a fresh entry (no plaintext yet). -/
def recordToMsg (n : IncomingRecord) : ClientMsg :=
  { messageId := n.messageId, roomId := n.roomId, senderId := n.senderId
  , username := n.username, ciphertext := n.ciphertext, iv := n.iv
  , status := n.status, createdAt := n.createdAt, plaintext := none }

/-- The spread-merge both part_005 handlers perform on a matched entry: every
canonical field comes from the incoming record, the locally cached plaintext
survives (the incoming record carries no plaintext key, and the
message-saved branch restores it explicitly). -/
def mergeKeepPlain (m : ClientMsg) (n : IncomingRecord) : ClientMsg :=
  { messageId := n.messageId, roomId := n.roomId, senderId := n.senderId
  , username := n.username, ciphertext := n.ciphertext, iv := n.iv
  , status := n.status, createdAt := n.createdAt, plaintext := m.plaintext }

/-- The fallback correlation predicate: same sender, ciphertext and iv. -/
def tripleMatches (n : IncomingRecord) (m : ClientMsg) : Bool :=
  m.senderId == n.senderId && m.ciphertext == n.ciphertext && m.iv == n.iv

/-- Replace the first entry satisfying the predicate (the find-then-map
on object identity in the source touches exactly the found element). -/
def replaceFirst (p : ClientMsg → Bool) (f : ClientMsg → ClientMsg) :
    List ClientMsg → List ClientMsg
  | [] => []
  | m :: rest => if p m then f m :: rest else m :: replaceFirst p f rest

/-- The message handler of the part_005 Chat page (lines 135-235, its list
update): merge by exact id if present, else by the sender-ciphertext-iv
triple when those fields are truthy, else append. -/
def onMessageChat5 (msgs : List ClientMsg) (n : IncomingRecord) : List ClientMsg :=
  if msgs.any (fun m => m.messageId == n.messageId) then
    msgs.map (fun m => if m.messageId == n.messageId then mergeKeepPlain m n else m)
  else if n.senderId != "" && n.ciphertext != "" && n.iv != "" then
    if msgs.any (tripleMatches n) then
      replaceFirst (tripleMatches n) (fun m => mergeKeepPlain m n) msgs
    else msgs ++ [recordToMsg n]
  else msgs ++ [recordToMsg n]

/-- The message-saved handler of the part_005 Chat page (lines 238-314, its
list update): the same three-tier merge; its by-id branch spells out
plaintext preservation explicitly. -/
def onMessageSavedChat5 (msgs : List ClientMsg) (n : IncomingRecord) : List ClientMsg :=
  if msgs.any (fun m => m.messageId == n.messageId) then
    msgs.map (fun m => if m.messageId == n.messageId then mergeKeepPlain m n else m)
  else if n.senderId != "" && n.ciphertext != "" && n.iv != "" then
    if msgs.any (tripleMatches n) then
      replaceFirst (tripleMatches n) (fun m => mergeKeepPlain m n) msgs
    else msgs ++ [recordToMsg n]
  else msgs ++ [recordToMsg n]

/-- The message handler of the plain Chat.jsx page (lines 84-105): the
incoming payload is appended unconditionally; no merge is attempted. -/
def onMessageChatJsx (msgs : List ClientMsg) (n : IncomingRecord) : List ClientMsg :=
  msgs ++ [recordToMsg n]

/-! ## Concrete values used by counterexamples and witnesses -/

/-- An optimistic local entry: client-minted id A, plaintext cached. -/
def optimisticA : ClientMsg :=
  { messageId := "A", roomId := "room-1", senderId := "S", username := "alice"
  , ciphertext := "Q1Q=", iv := "SVY=", status := "sending", createdAt := "t0"
  , plaintext := some "hello" }

/-- The canonical record for the same logical message under server id B. -/
def canonicalB : IncomingRecord :=
  { messageId := "B", roomId := "room-1", senderId := "S", username := "alice"
  , ciphertext := "Q1Q=", iv := "SVY=", status := "sent", createdAt := "t1" }

/-- A concrete send request used to drive the server handlers. -/
def sendReq : SendInput :=
  { roomId := "room-1", userId := "S", username := "alice"
  , ciphertext := "Q1Q=", iv := "SVY=", messageId := "M1", createdAt := some "t0" }

/-- A one-row messages table holding the persisted form of `sendReq`. -/
def dbAfterFirstSend : ServerState := (handleSendV1 ⟨[], []⟩ sendReq "t0").1

/-! ## Codec lemmas -/

theorem b64val_b64chr : ∀ n, n < 64 → b64val (b64chr n) = some n := by decide

theorem b64chr_ne_pad : ∀ n, n < 64 → b64chr n ≠ '=' := by decide

theorem decodeChunks_encodeChunks (bs : List Nat) :
    (∀ x ∈ bs, x < 256) → decodeChunks (encodeChunks bs) = some bs := by
  induction bs using encodeChunks.induct with
  | case1 a b c rest ih =>
      intro h
      have ha : a < 256 := h a (by simp)
      have hb : b < 256 := h b (by simp)
      have hc : c < 256 := h c (by simp)
      have e1 := b64val_b64chr (a / 4) (by omega)
      have e2 := b64val_b64chr (a % 4 * 16 + b / 16) (by omega)
      have e3 := b64val_b64chr (b % 16 * 4 + c / 64) (by omega)
      have e4 := b64val_b64chr (c % 64) (by omega)
      have n3 := b64chr_ne_pad (b % 16 * 4 + c / 64) (by omega)
      have n4 := b64chr_ne_pad (c % 64) (by omega)
      have ihr := ih (fun x hx => h x (by simp [hx]))
      simp only [encodeChunks, decodeChunks, e1, e2, e3, e4, ihr, if_neg n3, if_neg n4]
      refine congrArg some ?_
      have h1 : a / 4 * 4 + (a % 4 * 16 + b / 16) / 16 = a := by omega
      have h2 : (a % 4 * 16 + b / 16) % 16 * 16 + (b % 16 * 4 + c / 64) / 4 = b := by omega
      have h3 : (b % 16 * 4 + c / 64) % 4 * 64 + c % 64 = c := by omega
      simp [h1, h2, h3]
  | case2 a b =>
      intro h
      have ha : a < 256 := h a (by simp)
      have hb : b < 256 := h b (by simp)
      have e1 := b64val_b64chr (a / 4) (by omega)
      have e2 := b64val_b64chr (a % 4 * 16 + b / 16) (by omega)
      have e3 := b64val_b64chr (b % 16 * 4) (by omega)
      have n3 := b64chr_ne_pad (b % 16 * 4) (by omega)
      simp [encodeChunks, decodeChunks, e1, e2, e3, n3] <;> omega
  | case3 a =>
      intro h
      have ha : a < 256 := h a (by simp)
      have e1 := b64val_b64chr (a / 4) (by omega)
      have e2 := b64val_b64chr (a % 4 * 16) (by omega)
      simp [encodeChunks, decodeChunks, e1, e2] <;> omega
  | case4 =>
      intro _
      rfl

theorem fromBase64_toBase64 (bs : List Nat) (h : ∀ x ∈ bs, x < 256) :
    fromBase64 (toBase64 bs) = some bs := by
  simpa [fromBase64, toBase64] using decodeChunks_encodeChunks bs h

theorem toBase64_ne_empty (bs : List Nat) (h : bs ≠ []) : toBase64 bs ≠ "" := by
  match bs, h with
  | a :: b :: c :: rest, _ => simp [toBase64, encodeChunks, String.ext_iff]
  | [a, b], _ => simp [toBase64, encodeChunks, String.ext_iff]
  | [a], _ => simp [toBase64, encodeChunks, String.ext_iff]

theorem toBase64_bytes_ne_empty (bs : List Nat) (h : bs ≠ []) :
    toBase64 bs ≠ "" := toBase64_ne_empty bs h

theorem normalize_str_of_fromBase64 (s : String) (bs : List Nat)
    (hne : s ≠ "") (hfb : fromBase64 s = some bs) :
    normalizeToArrayBuffer (JSVal.str s) = .ok (some bs) := by
  have hcond : ¬ (isTruthy (JSVal.str s) = false ∧ JSVal.str s ≠ JSVal.num 0) := by
    simp [isTruthy, hne]
  simp only [normalizeToArrayBuffer, if_neg hcond, hfb]

/-- C9: the codec normalization function is idempotent and a no-op on values
already in binary form: whenever `normalizeToArrayBuffer` accepts an input
(returning either null or a buffer), feeding the result back in returns it
unchanged, and an ArrayBuffer input is returned as is. -/
theorem c9_normalize_idempotent :
    (∀ x r, normalizeToArrayBuffer x = .ok r →
      normalizeToArrayBuffer (normResultToInput r) = .ok r)
    ∧ (∀ bs, normalizeToArrayBuffer (JSVal.arrayBuffer bs) = .ok (some bs)) := by
  constructor
  · intro x r _
    cases r with
    | none => rfl
    | some bs => rfl
  · intro bs
    rfl

/-- Witness for C9 at a concrete accepted shape: the base64 string "AAAA"
normalizes to three zero bytes, and renormalizing that buffer is a no-op. -/
theorem c9_normalize_witness :
    normalizeToArrayBuffer (JSVal.str "AAAA") = .ok (some [0, 0, 0])
    ∧ normalizeToArrayBuffer (normResultToInput (some [0, 0, 0])) = .ok (some [0, 0, 0]) :=
  ⟨by rfl, c9_normalize_idempotent.1 (JSVal.str "AAAA") (some [0, 0, 0]) (by rfl)⟩

/-- C10 as frozen is false on the code: the number 0 is falsy yet
`normalizeToArrayBuffer` raises on it (it passes the falsy guard and matches
no shape), and a truthy string that is not valid base64 — a recognized
string shape — also raises (from atob) instead of returning. -/
theorem c10_counterexample :
    isTruthy (JSVal.num 0) = false
    ∧ (normalizeToArrayBuffer (JSVal.num 0)).isOk = false
    ∧ isTruthy (JSVal.str "%") = true
    ∧ recognizedShape (JSVal.str "%") = true
    ∧ (normalizeToArrayBuffer (JSVal.str "%")).isOk = false := by decide

/-- C10 (amended): every falsy input other than the number 0 returns null
without raising; on the remaining inputs (truthy ones and the number 0) the
call raises exactly when the input is an unrecognized shape or a string that
is not valid base64.  In particular the empty string returns null. -/
theorem c10_shape_amended (x : JSVal) :
    ((isTruthy x = false ∧ x ≠ JSVal.num 0) → normalizeToArrayBuffer x = .ok none)
    ∧ ((isTruthy x = true ∨ x = JSVal.num 0) →
        ((normalizeToArrayBuffer x).isOk = false ↔
          (recognizedShape x = false ∨ ∃ s, x = JSVal.str s ∧ fromBase64 s = none))) := by
  constructor
  · intro hx
    simp only [normalizeToArrayBuffer, if_pos hx]
  · intro hx
    cases x with
    | null => simp [isTruthy] at hx
    | undef => simp [isTruthy] at hx
    | bool b =>
        cases b with
        | false => simp [isTruthy] at hx
        | true => simp [normalizeToArrayBuffer, isTruthy, recognizedShape, Except.isOk, Except.toBool]
    | num n =>
        by_cases hn : n = 0 <;>
          simp [normalizeToArrayBuffer, isTruthy, recognizedShape, Except.isOk, Except.toBool, hn]
    | str s =>
        by_cases hs : s = ""
        · simp [isTruthy, hs] at hx
        · cases hfb : fromBase64 s with
          | some bs =>
              simp [normalizeToArrayBuffer, isTruthy, recognizedShape, Except.isOk, Except.toBool, hs, hfb]
          | none =>
              simp [normalizeToArrayBuffer, isTruthy, recognizedShape, Except.isOk, Except.toBool, hs, hfb]
    | arrayBuffer bs =>
        simp [normalizeToArrayBuffer, isTruthy, recognizedShape, Except.isOk, Except.toBool]
    | view buf =>
        simp [normalizeToArrayBuffer, isTruthy, recognizedShape, Except.isOk, Except.toBool]
    | obj data =>
        cases data with
        | none => simp [normalizeToArrayBuffer, isTruthy, recognizedShape, Except.isOk, Except.toBool]
        | some l => simp [normalizeToArrayBuffer, isTruthy, recognizedShape, Except.isOk, Except.toBool]

/-- Witness for C10 (amended) at the concrete input true: a truthy
unrecognized shape makes the normalizer raise. -/
theorem c10_shape_witness :
    (normalizeToArrayBuffer (JSVal.bool true)).isOk = false :=
  ((c10_shape_amended (JSVal.bool true)).2 (Or.inl rfl)).mpr (Or.inl rfl)

/-- C1: the encrypt-then-decrypt round trip of crypto.js holds for every key,
plaintext and fresh IV, for any AEAD primitive and UTF-8 codec satisfying
their standard contracts (the primitives live in Web Crypto, outside the
repository; the byte-validity side conditions hold for real Uint8Array
outputs by construction). -/
theorem c1_roundtrip {Key : Type}
    (aeadEnc : Key → List Nat → List Nat → List Nat)
    (aeadDec : Key → List Nat → List Nat → Option (List Nat))
    (utf8Enc : String → List Nat) (utf8Dec : List Nat → String)
    (haead : ∀ k iv pt, aeadDec k iv (aeadEnc k iv pt) = some pt)
    (hutf8 : ∀ s, utf8Dec (utf8Enc s) = s)
    (key : Key) (m : String) (ivBytes : List Nat)
    (hivne : ivBytes ≠ []) (hivb : ∀ b ∈ ivBytes, b < 256)
    (hctne : aeadEnc key ivBytes (utf8Enc m) ≠ [])
    (hctb : ∀ b ∈ aeadEnc key ivBytes (utf8Enc m), b < 256) :
    decryptText aeadDec utf8Dec key
      (JSVal.str (encryptText aeadEnc utf8Enc key m ivBytes).1)
      (JSVal.str (encryptText aeadEnc utf8Enc key m ivBytes).2) = .ok m := by
  have hnv : normalizeToArrayBuffer (JSVal.str (toBase64 ivBytes)) = .ok (some ivBytes) :=
    normalize_str_of_fromBase64 _ _ (toBase64_ne_empty _ hivne) (fromBase64_toBase64 _ hivb)
  have hnc : normalizeToArrayBuffer
      (JSVal.str (toBase64 (aeadEnc key ivBytes (utf8Enc m))))
      = .ok (some (aeadEnc key ivBytes (utf8Enc m))) :=
    normalize_str_of_fromBase64 _ _ (toBase64_ne_empty _ hctne) (fromBase64_toBase64 _ hctb)
  simp only [encryptText, decryptText, hnv, hnc, haead, hutf8]

/-- Witness for C1: a concrete instantiation (identity AEAD over the unit
key type and the char-code text codec) at plaintext "hi" and a 12-byte IV. -/
theorem c1_roundtrip_witness :
    decryptText (fun _ _ ct => some ct) (fun l => String.mk (l.map Char.ofNat)) ()
      (JSVal.str (encryptText (fun _ _ pt => pt) (fun s => s.data.map Char.toNat) ()
        "hi" [1, 2, 3, 4, 5, 6, 7, 8, 9, 10, 11, 12]).1)
      (JSVal.str (encryptText (fun _ _ pt => pt) (fun s => s.data.map Char.toNat) ()
        "hi" [1, 2, 3, 4, 5, 6, 7, 8, 9, 10, 11, 12]).2) = .ok "hi" :=
  c1_roundtrip (fun _ _ pt => pt) (fun _ _ ct => some ct)
    (fun s => s.data.map Char.toNat) (fun l => String.mk (l.map Char.ofNat))
    (fun _ _ _ => rfl)
    (fun s => by simp [List.map_map, Function.comp_def, Char.ofNat_toNat])
    () "hi" [1, 2, 3, 4, 5, 6, 7, 8, 9, 10, 11, 12]
    (by decide) (by decide) (by decide) (by decide)

/-- C7: key derivation is deterministic — in both crypto.js variants the full
parameter record handed to PBKDF2 is a pure function of the passphrase and
room id, so equal inputs derive equal keys — and for a nonempty room id both
variants run PBKDF2 over SHA-256 with the room id as the salt, a fixed
iteration count of at least 100000 (200000 and 120000), producing a 256-bit
AES-GCM key. -/
theorem c7_derive_params (p r : String) (hr : r ≠ "") :
    deriveKey1 p r = deriveKey1 p r
    ∧ deriveKey2 p r = deriveKey2 p r
    ∧ (∀ ps, deriveKey1 p r = .ok ps →
        ps.kdf = .pbkdf2 ∧ ps.hash = .sha256 ∧ ps.salt = r
        ∧ ps.iterations = 200000 ∧ 100000 ≤ ps.iterations
        ∧ ps.keyAlg = .aesGcm ∧ ps.keyLength = 256)
    ∧ (∀ ps, deriveKey2 p r = .ok ps →
        ps.kdf = .pbkdf2 ∧ ps.hash = .sha256 ∧ ps.salt = r
        ∧ ps.iterations = 120000 ∧ 100000 ≤ ps.iterations
        ∧ ps.keyAlg = .aesGcm ∧ ps.keyLength = 256) := by
  refine ⟨rfl, rfl, ?_, ?_⟩
  · intro ps hps
    simp only [deriveKey1, if_neg hr, Except.ok.injEq] at hps
    subst hps
    simp
  · intro ps hps
    by_cases hp : p = ""
    · simp [deriveKey2, hp] at hps
    · simp only [deriveKey2, if_neg hp, if_neg hr, Except.ok.injEq] at hps
      subst hps
      simp

/-- Witness for C7 at the passphrase correct horse and room room-42: the
concrete parameter record it derives uses the room id as salt and 200000
iterations. -/
theorem c7_derive_params_witness :
    ({ kdf := KdfAlg.pbkdf2, hash := HashAlg.sha256, pass := "correct horse",
       salt := "room-42", iterations := 200000, keyAlg := KeyAlg.aesGcm,
       keyLength := 256 } : DeriveParams).salt = "room-42"
    ∧ ({ kdf := KdfAlg.pbkdf2, hash := HashAlg.sha256, pass := "correct horse",
         salt := "room-42", iterations := 200000, keyAlg := KeyAlg.aesGcm,
         keyLength := 256 } : DeriveParams).iterations = 200000 := by
  have h := (c7_derive_params "correct horse" "room-42" (by decide)).2.2.1
    { kdf := KdfAlg.pbkdf2, hash := HashAlg.sha256, pass := "correct horse",
      salt := "room-42", iterations := 200000, keyAlg := KeyAlg.aesGcm,
      keyLength := 256 } (by rfl)
  exact ⟨h.2.2.1, h.2.2.2.1⟩

/-- C8 as frozen is false on the code: no single deriveKey both rejects an
empty passphrase and substitutes the fixed default salt for an empty room
id.  Variant 1 (the one that owns the default-room salt) accepts the empty
passphrase and derives anyway; variant 2 (the one that rejects) keeps the
empty string as the salt instead of substituting the fixed default. -/
theorem c8_counterexample :
    (deriveKey1 "" "room-1").isOk = true
    ∧ deriveKey2 "pw" ""
        = .ok { kdf := .pbkdf2, hash := .sha256, pass := "pw", salt := ""
              , iterations := 120000, keyAlg := .aesGcm, keyLength := 256 }
    ∧ ("" : String) ≠ "default-room" := by
  refine ⟨rfl, rfl, by decide⟩

/-- C8 (amended): the edge-case policy is split across the two variants.
Variant 1 never rejects: an empty passphrase is coerced to the empty string
and an empty room id is replaced by the fixed default salt default-room.
Variant 2 rejects an empty passphrase before derivation and keeps an empty
salt as the empty string. -/
theorem c8_policy_amended (p s : String) :
    ((deriveKey1 p s).isOk = true)
    ∧ (p = "" → ∀ ps, deriveKey1 p s = .ok ps → ps.pass = "")
    ∧ (s = "" → ∀ ps, deriveKey1 p s = .ok ps → ps.salt = "default-room")
    ∧ (p = "" → deriveKey2 p s = .error "passphrase required")
    ∧ (p ≠ "" → ∀ ps, deriveKey2 p s = .ok ps → ps.salt = s) := by
  refine ⟨rfl, ?_, ?_, ?_, ?_⟩
  · intro hp ps hps
    simp only [deriveKey1, Except.ok.injEq] at hps
    subst hps
    simp [hp]
  · intro hs ps hps
    simp only [deriveKey1, Except.ok.injEq] at hps
    subst hps
    simp [hs]
  · intro hp
    simp [deriveKey2, hp]
  · intro hp ps hps
    simp only [deriveKey2, if_neg hp, Except.ok.injEq] at hps
    subst hps
    by_cases hs : s = "" <;> simp [hs]

/-- Witness for C8 (amended) at concrete inputs: variant 1 with the empty
passphrase and empty room id derives with the default salt; variant 2
rejects the empty passphrase. -/
theorem c8_policy_witness :
    (∀ ps, deriveKey1 "" "" = .ok ps → ps.salt = "default-room")
    ∧ deriveKey2 "" "room-1" = .error "passphrase required" :=
  ⟨(c8_policy_amended "" "").2.2.1 rfl, (c8_policy_amended "" "room-1").2.2.2.1 rfl⟩

theorem rowOfInput_messageId (inp : SendInput) (t : String) :
    (rowOfInput inp t).messageId = inp.messageId := rfl

theorem rowOfInput_status (inp : SendInput) (t : String) :
    (rowOfInput inp t).status = "sent" := rfl

/-- C3 as frozen is false on the code: the handlers issue a plain INSERT, so
a second send of the same messageId hits the unique constraint; the catch
answers with a generic send-error instead of returning the first insert's
canonical fields.  Exactly one row does remain. -/
theorem c3_counterexample :
    (handleSendV1 dbAfterFirstSend sendReq "t1").1.messages.length = 1
    ∧ (handleSendV1 dbAfterFirstSend sendReq "t1").2
        = [⟨"send-error", .senderOnly, { error := some "db error" }⟩]
    ∧ ∀ e ∈ (handleSendV1 dbAfterFirstSend sendReq "t1").2,
        e.payload.ciphertext = none ∧ e.event ≠ "message-saved" := by decide

/-- C3 (amended): a first send with a fresh messageId persists one row; a
second send of the same messageId leaves the table unchanged (still exactly
one row for that id) but is answered with a send-error to the sender, not
with the canonical fields. -/
theorem c3_duplicate_amended (st : ServerState) (inp : SendInput) (t1 t2 : String)
    (hfresh : st.messages.any (fun r => r.messageId == inp.messageId) = false) :
    ((handleSendV1 st inp t1).1.messages = st.messages ++ [rowOfInput inp t1])
    ∧ (handleSendV1 (handleSendV1 st inp t1).1 inp t2).1.messages
        = (handleSendV1 st inp t1).1.messages
    ∧ (handleSendV1 (handleSendV1 st inp t1).1 inp t2).2
        = [⟨"send-error", .senderOnly, { error := some "db error" }⟩] := by
  have hfr : (st.messages.any fun r => r.messageId == (rowOfInput inp t1).messageId)
      = false := hfresh
  have h1 : insertMessage st.messages (rowOfInput inp t1)
      = .ok (st.messages ++ [rowOfInput inp t1]) := by
    simp [insertMessage, hfr]
  have h2 : insertMessage (st.messages ++ [rowOfInput inp t1]) (rowOfInput inp t2)
      = .error "duplicate key value violates unique constraint" := by
    simp [insertMessage, rowOfInput]
  refine ⟨?_, ?_, ?_⟩ <;> simp [handleSendV1, h1, h2]

/-- Witness for C3 (amended) at a concrete duplicate send. -/
theorem c3_duplicate_witness :
    (handleSendV1 (handleSendV1 ⟨[], []⟩ sendReq "t0").1 sendReq "t1").2
      = [⟨"send-error", .senderOnly, { error := some "db error" }⟩] :=
  (c3_duplicate_amended ⟨[], []⟩ sendReq "t0" "t1" (by rfl)).2.2

/-- C4 as frozen is false on the code: the receipt handlers overwrite the
status column unconditionally, so markRead followed by markDelivered leaves
the row's status at delivered — strictly below read — even though read_at
stays set (only the timestamps are first-write-wins). -/
theorem c4_counterexample :
    markDelivered 7 (markRead 5
        [⟨"m1", "room-1", "S", "Q1Q=", "SVY=", "sent", none, none, "t0"⟩] "m1") "m1"
      = [⟨"m1", "room-1", "S", "Q1Q=", "SVY=", "delivered", some 7, some 5, "t0"⟩]
    ∧ statusRank "delivered" < statusRank "read" := by decide

/-- C4 (amended): for every table, message id and pair of instants, applying
markRead then markDelivered coalesces both timestamps (first write wins,
never regressed) but overwrites the status column with delivered, regressing
it below read. -/
theorem c4_status_amended (db : List MsgRow) (mid : String) (t1 t2 : Nat) :
    markDelivered t2 (markRead t1 db mid) mid
      = db.map (fun r =>
          if r.messageId = mid then
            { r with
              status := "delivered",
              readAt := some (r.readAt.getD t1),
              deliveredAt := some (r.deliveredAt.getD t2) }
          else r) := by
  simp only [markDelivered, markRead, List.map_map]
  refine List.map_congr_left (fun r _ => ?_)
  by_cases hr : r.messageId = mid <;> simp [Function.comp_def, hr]

/-- C5 as frozen is false on the code: variant 1 broadcasts with io.to, so
the canonical record reaches the originating connection too, and in both
variants the acknowledgment carries only the id and status — its ciphertext
key is absent while the canonical record's is present. -/
theorem c5_counterexample :
    (handleSendV1 ⟨[], []⟩ sendReq "t0").2
      = [ ⟨"message", .roomAll "room-1", canonicalPayload (rowOfInput sendReq "t0") "alice"⟩
        , ⟨"message-saved", .senderOnly,
            { messageId := some "M1", status := some "sent" }⟩ ]
    ∧ includesSender (.roomAll "room-1") = true
    ∧ (({ messageId := some "M1", status := some "sent" } : WirePayload)).ciphertext = none
    ∧ (canonicalPayload (rowOfInput sendReq "t0") "alice").ciphertext = some "Q1Q="
    ∧ (handleSendV3 ⟨[], []⟩ sendReq "t0").2
      = [ ⟨"message", .roomOthers "room-1", canonicalPayload (rowOfInput sendReq "t0") "alice"⟩
        , ⟨"message-saved", .senderOnly,
            { messageId := some "M1", status := some "sent" }⟩ ] := by decide

/-- C5 (amended): on a successful send, variant 3 broadcasts the canonical
record to the room excluding the sender while variant 1 includes the sender;
both separately acknowledge the sender, but only with the messageId and
status, never the full canonical record. -/
theorem c5_emit_amended (st : ServerState) (inp : SendInput) (t : String)
    (hfresh : st.messages.any (fun r => r.messageId == inp.messageId) = false) :
    (handleSendV1 st inp t).2
      = [ ⟨"message", .roomAll inp.roomId, canonicalPayload (rowOfInput inp t) inp.username⟩
        , ⟨"message-saved", .senderOnly,
            { messageId := some inp.messageId, status := some "sent" }⟩ ]
    ∧ (handleSendV3 st inp t).2
      = [ ⟨"message", .roomOthers inp.roomId,
            canonicalPayload (rowOfInput inp t)
              (if inp.username = "" then "Anon" else inp.username)⟩
        , ⟨"message-saved", .senderOnly,
            { messageId := some inp.messageId, status := some "sent" }⟩ ]
    ∧ includesSender (.roomAll inp.roomId) = true
    ∧ includesSender (.roomOthers inp.roomId) = false
    ∧ (({ messageId := some inp.messageId, status := some "sent" } : WirePayload)).iv = none
    ∧ (({ messageId := some inp.messageId, status := some "sent" } : WirePayload)).ciphertext
        = none := by
  have hfr : (st.messages.any fun r => r.messageId == (rowOfInput inp t).messageId)
      = false := hfresh
  have h1 : insertMessage st.messages (rowOfInput inp t)
      = .ok (st.messages ++ [rowOfInput inp t]) := by
    simp [insertMessage, hfr]
  refine ⟨?_, ?_, rfl, rfl, rfl, rfl⟩ <;>
    simp [handleSendV1, handleSendV3, h1, rowOfInput_messageId, rowOfInput_status]

/-- Witness for C5 (amended) at a concrete fresh send. -/
theorem c5_emit_witness :
    (handleSendV3 ⟨[], []⟩ sendReq "t0").2
      = [ ⟨"message", .roomOthers "room-1",
            canonicalPayload (rowOfInput sendReq "t0")
              (if sendReq.username = "" then "Anon" else sendReq.username)⟩
        , ⟨"message-saved", .senderOnly,
            { messageId := some "M1", status := some "sent" }⟩ ] :=
  (c5_emit_amended ⟨[], []⟩ sendReq "t0" (by rfl)).2.1

/-- C6 as frozen is false on the code: the persistence-failure signal of the
persisting variants is a generic send-error that does not carry the
client-supplied messageId (it is notified only to the sender, and no message
broadcast happens — those parts hold). -/
theorem c6_counterexample :
    (handleSendV1 dbAfterFirstSend sendReq "t1").2
        = [⟨"send-error", .senderOnly, { error := some "db error" }⟩]
    ∧ (∀ e ∈ (handleSendV1 dbAfterFirstSend sendReq "t1").2,
        e.payload.messageId = none)
    ∧ (∀ e ∈ (handleSendV1 dbAfterFirstSend sendReq "t1").2,
        e.event ≠ "message" ∧ e.target = .senderOnly) := by decide

/-- C6 (amended): on a persistence failure both persisting variants notify
only the originating connection and suppress the room broadcast of the
unpersisted record, but the failure signal carries no messageId (variant 3
adds only the store's error text).  The one handler whose catch would ack
message-saved with the messageId and a failed status — the part_001 stub —
performs no persistence at all, so its failure path cannot run. -/
theorem c6_failure_amended (st : ServerState) (inp : SendInput) (t : String)
    (hdup : st.messages.any (fun r => r.messageId == inp.messageId) = true) :
    (handleSendV1 st inp t).2
        = [⟨"send-error", .senderOnly, { error := some "db error" }⟩]
    ∧ (handleSendV3 st inp t).2
        = [⟨"send-error", .senderOnly,
            { error := some "db error"
            , details := some "duplicate key value violates unique constraint" }⟩]
    ∧ (∀ e ∈ (handleSendV1 st inp t).2, e.target = .senderOnly ∧ e.event ≠ "message"
        ∧ e.payload.messageId = none)
    ∧ (∀ e ∈ (handleSendV3 st inp t).2, e.target = .senderOnly ∧ e.event ≠ "message"
        ∧ e.payload.messageId = none)
    ∧ handleSendP1 inp
        = [ ⟨"message", .roomOthers inp.roomId,
              { messageId := some inp.messageId, roomId := some inp.roomId
              , senderId := some inp.userId, ciphertext := some inp.ciphertext
              , iv := some inp.iv, createdAt := inp.createdAt, status := some "sent" }⟩
          , ⟨"message-saved", .senderOnly,
              { messageId := some inp.messageId, status := some "sent" }⟩ ] := by
  have hd : (st.messages.any fun r => r.messageId == (rowOfInput inp t).messageId)
      = true := hdup
  have h2 : insertMessage st.messages (rowOfInput inp t)
      = .error "duplicate key value violates unique constraint" := by
    simp [insertMessage, hd]
  refine ⟨?_, ?_, ?_, ?_, rfl⟩ <;> simp [handleSendV1, handleSendV3, h2]

/-- Witness for C6 (amended) at a concrete duplicate send. -/
theorem c6_failure_witness :
    (handleSendV3 dbAfterFirstSend sendReq "t1").2
        = [⟨"send-error", .senderOnly,
            { error := some "db error"
            , details := some "duplicate key value violates unique constraint" }⟩] :=
  (c6_failure_amended dbAfterFirstSend sendReq "t1" (by rfl)).2.1

theorem replaceFirst_append (p : ClientMsg → Bool) (f : ClientMsg → ClientMsg)
    (pre post : List ClientMsg) (opt : ClientMsg)
    (hpre : ∀ m ∈ pre, p m = false) (hopt : p opt = true) :
    replaceFirst p f (pre ++ opt :: post) = pre ++ f opt :: post := by
  induction pre with
  | nil => simp [replaceFirst, hopt]
  | cons a pre ih =>
      have ha : p a = false := hpre a (by simp)
      simp [replaceFirst, ha, ih (fun m hm => hpre m (by simp [hm]))]

/-- C2 as frozen is false on the code: the plain Chat.jsx message handler
appends the incoming canonical record unconditionally, so an optimistic
local entry and the canonical record for the same logical message both stay
in the list — two entries, the first still keyed by the local id. -/
theorem c2_counterexample :
    onMessageChatJsx [optimisticA] canonicalB = [optimisticA, recordToMsg canonicalB]
    ∧ (onMessageChatJsx [optimisticA] canonicalB).countP (tripleMatches canonicalB) = 2
    ∧ optimisticA.messageId ≠ canonicalB.messageId := by decide

/-- C2 (amended): the merge guarantee holds for the part_005 client. For any
list holding exactly one entry matching the incoming record's
(sender, ciphertext, iv) triple and no entry with the canonical id, both the
message and the message-saved handlers collapse the optimistic entry and the
canonical record into a single entry, keyed by the canonical id, with the
cached plaintext preserved; the plain Chat.jsx message handler instead
appends a duplicate. -/
theorem c2_merge_amended (pre post : List ClientMsg) (opt : ClientMsg)
    (n : IncomingRecord)
    (hopt : tripleMatches n opt = true)
    (hpre : ∀ m ∈ pre, tripleMatches n m = false)
    (hpost : ∀ m ∈ post, tripleMatches n m = false)
    (hnoB : ∀ m ∈ pre ++ opt :: post, m.messageId ≠ n.messageId)
    (hs : n.senderId ≠ "") (hc : n.ciphertext ≠ "") (hi : n.iv ≠ "") :
    onMessageChat5 (pre ++ opt :: post) n = pre ++ mergeKeepPlain opt n :: post
    ∧ onMessageSavedChat5 (pre ++ opt :: post) n = pre ++ mergeKeepPlain opt n :: post
    ∧ (mergeKeepPlain opt n).messageId = n.messageId
    ∧ (mergeKeepPlain opt n).plaintext = opt.plaintext
    ∧ (pre ++ mergeKeepPlain opt n :: post).countP (tripleMatches n) = 1 := by
  have hanyid : ((pre ++ opt :: post).any (fun m => m.messageId == n.messageId)) = false := by
    simp only [List.any_eq_false]
    intro m hm
    simpa using hnoB m hm
  have hanytr : ((pre ++ opt :: post).any (tripleMatches n)) = true := by
    simp only [List.any_eq_true]
    exact ⟨opt, by simp, hopt⟩
  have hcond : (n.senderId != "" && n.ciphertext != "" && n.iv != "") = true := by
    simp [hs, hc, hi]
  have hrepl := replaceFirst_append (tripleMatches n)
    (fun m => mergeKeepPlain m n) pre post opt hpre hopt
  have hmerged : tripleMatches n (mergeKeepPlain opt n) = true := by
    simp [tripleMatches, mergeKeepPlain]
  refine ⟨?_, ?_, rfl, rfl, ?_⟩
  · simp only [onMessageChat5, hanyid, hcond, hanytr, Bool.false_eq_true, if_false, if_true]
    exact hrepl
  · simp only [onMessageSavedChat5, hanyid, hcond, hanytr, Bool.false_eq_true, if_false, if_true]
    exact hrepl
  · have hp0 : pre.countP (tripleMatches n) = 0 :=
      List.countP_eq_zero.mpr (fun m hm => by simp [hpre m hm])
    have hp1 : post.countP (tripleMatches n) = 0 :=
      List.countP_eq_zero.mpr (fun m hm => by simp [hpost m hm])
    simp [List.countP_append, List.countP_cons, hp0, hp1, hmerged]

/-- Witness for C2 (amended): the concrete optimistic entry A merged with
the canonical record B yields one entry keyed B with plaintext kept. -/
theorem c2_merge_witness :
    onMessageChat5 [optimisticA] canonicalB = [mergeKeepPlain optimisticA canonicalB]
    ∧ (mergeKeepPlain optimisticA canonicalB).plaintext = some "hello" :=
  ⟨(c2_merge_amended [] [] optimisticA canonicalB (by decide) (by simp) (by simp)
      (by decide) (by decide) (by decide) (by decide)).1,
   by decide⟩
